import Mathlib

/-!
Shallow embedding of `generate_final.py`, a generator that materializes two
static-port Java project skeletons ("my-spring-app" on port 8080 and
"my-servlet-app" on port 8081) onto a filesystem.

The embedding models:
  * Python string helpers used by the generator (`str.strip`,
    `textwrap.dedent`, `os.path.dirname`, `os.makedirs`);
  * a filesystem state (files as a path-to-content association list, plus a
    set of directories and the console output), and a fault model `World`
    saying which paths raise `PermissionError` or some other exception when
    `shutil.rmtree` is attempted on them;
  * the functions `create_file`, `clean_directory`, `setup_spring_project`,
    `setup_servlet_project` and `main` of the source, as state transformers
    returning an `Outcome` (normal return, `sys.exit`, or an uncaught
    exception).
-/

set_option maxRecDepth 40000

/-- Characters removed by Python `str.strip()` with no argument. -/
def isPyWs (c : Char) : Bool :=
  c == ' ' || c == '\t' || c == '\n' || c == '\r' || c == '\x0b' || c == '\x0c'

/-- Python `str.strip()` on a character list: drop whitespace from both ends. -/
def pyStripList (l : List Char) : List Char :=
  ((l.dropWhile isPyWs).reverse.dropWhile isPyWs).reverse

/-- Python `str.strip()`. -/
def pyStrip (s : String) : String := ⟨pyStripList s.data⟩

/-- Split a character list on a separator character (like Python
`str.split(sep)`): always returns at least one (possibly empty) chunk. -/
def splitOnChar (sep : Char) : List Char → List (List Char)
  | [] => [[]]
  | c :: cs =>
    if c == sep then [] :: splitOnChar sep cs
    else
      match splitOnChar sep cs with
      | [] => [[c]]
      | ln :: rest => (c :: ln) :: rest

/-- Join chunks with a separator character (like `sep.join`). -/
def joinWith (sep : Char) : List (List Char) → List Char
  | [] => []
  | [ln] => ln
  | ln :: rest => ln ++ sep :: joinWith sep rest

/-- Space or tab, the indentation characters `textwrap.dedent` considers. -/
def isSpaceTab (c : Char) : Bool := c == ' ' || c == '\t'

/-- A nonempty line consisting solely of whitespace; `textwrap.dedent`
normalizes such lines to empty lines. -/
def isWsOnlyLine (l : List Char) : Bool := !l.isEmpty && l.all isSpaceTab

/-- Longest common prefix of two character lists. -/
def lcp : List Char → List Char → List Char
  | a :: as, b :: bs => if a == b then a :: lcp as bs else []
  | _, _ => []

/-- The common indentation margin `textwrap.dedent` computes: the longest
common leading space/tab run of all lines that contain a non-whitespace
character. -/
def marginOf (lines : List (List Char)) : List Char :=
  match (lines.filter (fun l => l.any (fun c => !isSpaceTab c))).map
      (List.takeWhile isSpaceTab) with
  | [] => []
  | i :: is => is.foldl lcp i

/-- One line of `textwrap.dedent` output: whitespace-only lines become empty;
other lines lose the margin if they start with it. -/
def dedentLine (margin l : List Char) : List Char :=
  if isWsOnlyLine l then []
  else if margin.isPrefixOf l then l.drop margin.length
  else l

/-- Python `textwrap.dedent`: remove the common leading whitespace margin from
all lines of the text, normalizing whitespace-only lines to empty lines. -/
def dedent (s : String) : String :=
  let lines := splitOnChar '\n' s.data
  ⟨joinWith '\n' (lines.map (dedentLine (marginOf lines)))⟩

/-- POSIX `os.path.dirname`: everything before the final slash (the result
keeps no trailing slashes unless it consists solely of slashes). -/
def dirname (p : String) : String :=
  let head := (p.data.reverse.dropWhile (fun c => !(c == '/'))).reverse
  if head.isEmpty || head.all (fun c => c == '/') then ⟨head⟩
  else ⟨(head.reverse.dropWhile (fun c => c == '/')).reverse⟩

/-- The chain of directories `os.makedirs d` creates: every slash-separated
prefix of `d`, ending with `d` itself. -/
def ancestors (d : String) : List String :=
  let parts := splitOnChar '/' d.data
  (List.range parts.length).map (fun i => ⟨joinWith '/' (parts.take (i + 1))⟩)

/-- Number of occurrences (possibly overlapping) of `pat` as a contiguous
sublist, counted over all start positions. -/
def countSubAux (pat : List Char) : List Char → Nat
  | [] => if pat.isEmpty then 1 else 0
  | c :: cs => (if pat.isPrefixOf (c :: cs) then 1 else 0) + countSubAux pat cs

/-- Number of occurrences of the pattern string inside `s`. -/
def countSub (s pat : String) : Nat := countSubAux pat.data s.data

/-- Does the pattern string occur inside `s`? -/
def hasSub (s pat : String) : Bool := !(countSub s pat == 0)

/-- Maximal decimal-digit runs of a character list, in order. -/
def digitRunsAux : List Char → List Char → List (List Char)
  | [], acc => if acc.isEmpty then [] else [acc.reverse]
  | c :: cs, acc =>
    if c.isDigit then digitRunsAux cs (c :: acc)
    else if acc.isEmpty then digitRunsAux cs []
    else acc.reverse :: digitRunsAux cs []

/-- Maximal decimal-digit runs occurring in a string. -/
def digitRuns (s : String) : List (List Char) := digitRunsAux s.data []

/-- Numeric value of a digit run. -/
def runVal (r : List Char) : Nat := r.foldl (fun n c => 10 * n + (c.toNat - 48)) 0

/-- A number in the non-system port range: numerals below 1024 appearing in the
templates are version numbers, exit codes and delays, never ports. -/
def portRange (n : Nat) : Bool := 1024 ≤ n && n ≤ 65535

/-- All port-like numerals of a string: values of its maximal digit runs that
lie in the non-system port range. -/
def portRuns (s : String) : List Nat := ((digitRuns s).map runVal).filter portRange

/-- Does the string mention `p` as a port-like numeral? -/
def mentionsPort (s : String) (p : Nat) : Bool := (portRuns s).contains p

/-- Is `e` the path `p` itself, or strictly beneath the directory `p`? -/
def underOf (p e : String) : Bool := e == p || (p.data ++ ['/']).isPrefixOf e.data

/-- Filesystem-and-console state threaded through the generator: files are an
association list from absolute path to content, `dirs` records directories
known to exist, `output` the lines printed so far.  A path exists when some
recorded file or directory witnesses it (is it, or lies beneath it). -/
structure FileSys where
  files : List (String × String)
  dirs : List String
  output : List String
deriving DecidableEq, Repr

/-- Fault model for `shutil.rmtree`: which paths raise `PermissionError`
(artifacts owned by another principal after a privileged run), and which fail
with some other, non-permission exception during recursive removal. -/
structure World where
  removeBlocked : String → Bool
  removeFault : String → Bool

/-- Result of running a piece of the generator: normal return, `sys.exit`
with an exit code, or an uncaught exception propagating out. -/
inductive Outcome where
  | ok (s : FileSys)
  | exited (code : Nat) (s : FileSys)
  | raised (s : FileSys)
deriving DecidableEq, Repr

/-- Sequencing: `sys.exit` and uncaught exceptions abort the continuation. -/
def Outcome.bind (o : Outcome) (f : FileSys → Outcome) : Outcome :=
  match o with
  | .ok s => f s
  | e => e

/-- `os.path.exists p`: some recorded entry is `p` or lies beneath `p`. -/
def FileSys.existsPath (s : FileSys) (p : String) : Bool :=
  s.dirs.any (fun d => underOf p d) || s.files.any (fun f => underOf p f.1)

/-- Is there a regular file recorded at exactly path `p`? -/
def FileSys.isFileAt (s : FileSys) (p : String) : Bool :=
  s.files.any (fun f => f.1 == p)

/-- Effect of a successful `shutil.rmtree p`: every entry at or beneath `p`
disappears. -/
def FileSys.removeUnder (s : FileSys) (p : String) : FileSys :=
  { s with files := s.files.filter (fun f => !underOf p f.1),
           dirs := s.dirs.filter (fun d => !underOf p d) }

/-- Append a line to the console output. -/
def FileSys.print (s : FileSys) (line : String) : FileSys :=
  { s with output := s.output ++ [line] }

/-- Insert the directories of `l` that are not already recorded. -/
def addAll (ds : List String) (l : List String) : List String :=
  l.foldl (fun acc a => if acc.contains a then acc else acc ++ [a]) ds

/-- Write-or-replace in the file association list. -/
def setFile : List (String × String) → String → String → List (String × String)
  | [], p, c => [(p, c)]
  | f :: fs, p, c => if f.1 == p then (p, c) :: fs else f :: setFile fs p c

/-- `os.makedirs d (exist_ok := True)`: creating the empty path raises
`FileNotFoundError`; otherwise every ancestor of `d` is created, succeeding
even when some or all already exist. -/
def makedirs (d : String) (s : FileSys) : Outcome :=
  if d == "" then .raised s
  else .ok { s with dirs := addAll s.dirs (ancestors d) }

/-- The diagnostic `clean_directory` prints when `shutil.rmtree` raises
`PermissionError`, one string per `print` call. -/
def diagLines (path : String) : List String :=
  ["\n❌ ERROR: Permission denied while removing \x27" ++ path ++ "\x27.",
   "   REASON: The previous build was run with \x27sudo\x27, so the files are owned by Root.",
   "   FIX: Please run this command to clean up, then try again:",
   "        sudo rm -rf " ++ path ++ "\n"]

/-- `clean_directory` of the source: if the path exists, attempt
`shutil.rmtree`; on `PermissionError` print the diagnostic and `sys.exit(1)`;
`rmtree` on a regular file raises `NotADirectoryError`, and any other
non-permission failure also propagates uncaught. -/
def clean_directory (w : World) (path : String) (s : FileSys) : Outcome :=
  if s.existsPath path then
    if s.isFileAt path then .raised s
    else if w.removeBlocked path then
      .exited 1 { s with output := s.output ++ diagLines path }
    else if w.removeFault path then .raised s
    else .ok (s.removeUnder path)
  else .ok s

/-- `create_file` of the source: ensure the parent directory chain exists,
write the stripped content (replacing any existing file), and print a
confirmation line. -/
def create_file (path content : String) (s : FileSys) : Outcome :=
  (makedirs (dirname path) s).bind (fun s1 =>
    .ok (FileSys.print
      { s1 with files := setFile s1.files path (pyStrip content) }
      ("✅ Generated: " ++ path)))
def springPom : String :=
"\n<project xmlns=\"http://maven.apache.org/POM/4.0.0\" xmlns:xsi=\"http://www.w3.org/2001/XMLSchema-instance\"\n  xsi:schemaLocation=\"http://maven.apache.org/POM/4.0.0 http://maven.apache.org/xsd/maven-4.0.0.xsd\">\n  <modelVersion>4.0.0</modelVersion>\n  <groupId>com.company</groupId>\n  <artifactId>my-spring-app</artifactId>\n  <version>1.0</version>\n  <parent>\n    <groupId>org.springframework.boot</groupId>\n    <artifactId>spring-boot-starter-parent</artifactId>\n    <version>2.7.0</version>\n  </parent>\n  <properties><java.version>17</java.version></properties>\n  <dependencies>\n    <dependency><groupId>org.springframework.boot</groupId><artifactId>spring-boot-starter-web</artifactId></dependency>\n  </dependencies>\n  <build><plugins><plugin><groupId>org.springframework.boot</groupId><artifactId>spring-boot-maven-plugin</artifactId></plugin></plugins></build>\n</project>\n"

def springProps : String :=
"server.port=8080"

def springJava : String :=
"\npackage com.company;\nimport org.springframework.boot.SpringApplication;\nimport org.springframework.boot.autoconfigure.SpringBootApplication;\nimport org.springframework.web.bind.annotation.GetMapping;\nimport org.springframework.web.bind.annotation.RestController;\n\n@SpringBootApplication\n@RestController\npublic class Application \x7b\n    public static void main(String[] args) \x7b\n        SpringApplication.run(Application.class, args);\n    \x7d\n    @GetMapping(\"/\")\n    public String home() \x7b\n        return \"<h1>Spring Boot is Live!</h1><p>Running on STATIC Port 8080</p>\";\n    \x7d\n\x7d\n"

def springBashTmpl : String :=
"\n        #!/bin/bash\n        # Port is NO LONGER a variable here. It is read from the JAR file.\n        LOG_FILE=\"server.log\"\n\n        if ! command -v mvn &> /dev/null; then echo \"Maven missing\"; exit 1; fi\n\n        # Kill any process on 8080\n        PID=$(lsof -t -i:8080)\n        if [ -n \"$PID\" ]; then kill -9 $PID; sleep 2; fi\n\n        echo \"Building Project...\"\n        mvn clean package -DskipTests\n        if [ $? -ne 0 ]; then echo \"Build Failed\"; exit 1; fi\n\n        JAR_FILE=$(find target -name \"*.jar\" -not -name \"*.original\" | head -n 1)\n        \n        echo \"Starting Server (Port defined in application.properties)...\"\n        # Notice: We removed the --server.port argument. \n        # It is now locked inside the JAR.\n        nohup java -jar \"$JAR_FILE\" > $LOG_FILE 2>&1 &\n\n        echo \"Waiting for start...\"\n        sleep 5\n        if lsof -t -i:8080 > /dev/null; then\n            echo \"SUCCESS! Online at http://localhost:8080\"\n        else\n            echo \"FAILED. Check logs.\"\n        fi\n    "

def springServiceTmpl : String :=
"\n        #!/bin/bash\n        SERVICE_NAME=\"my-spring-app\"\n        WORK_DIR=$(pwd)\n        \n        # --- AUTO-BUILD LOGIC ---\n        # If target folder is missing OR jar is missing, build it.\n        if [ ! -d \"target\" ] || [ -z \"$(find target -name \"*.jar\" -not -name \"*.original\" 2>/dev/null)\" ]; then\n            echo \"⚠️  Artifact not found. Building Project first...\"\n            \n            if ! command -v mvn &> /dev/null; then\n                echo \"❌ Maven not found. Install Maven first.\"\n                exit 1\n            fi\n\n            mvn clean package -DskipTests\n            \n            if [ $? -ne 0 ]; then\n                echo \"❌ Build Failed.\"\n                exit 1\n            fi\n        fi\n        \n        JAR_FILE=$(find \"$WORK_DIR/target\" -name \"*.jar\" -not -name \"*.original\" | head -n 1)\n        \n        if [ -z \"$JAR_FILE\" ]; then echo \"❌ Critical Error: JAR file still not found after build.\"; exit 1; fi\n\n        echo \"Creating Service for $SERVICE_NAME...\"\n\n        # We do NOT pass the port here. It relies on the internal JAR config.\n        sudo tee /etc/systemd/system/$SERVICE_NAME.service > /dev/null <<EOF\n[Unit]\nDescription=Spring Boot Static Port\nAfter=network.target\n\n[Service]\nUser=$USER\nWorkingDirectory=$WORK_DIR\nExecStart=/usr/bin/java -jar $JAR_FILE\nSuccessExitStatus=143\nRestart=always\nRestartSec=10\n\n[Install]\nWantedBy=multi-user.target\nEOF\n\n        sudo systemctl daemon-reload\n        sudo systemctl enable $SERVICE_NAME\n        sudo systemctl start $SERVICE_NAME\n        echo \"✅ Service Installed. Port 8080 is locked.\"\n    "

def servletPom : String :=
"\n<project xmlns=\"http://maven.apache.org/POM/4.0.0\" xmlns:xsi=\"http://www.w3.org/2001/XMLSchema-instance\"\n  xsi:schemaLocation=\"http://maven.apache.org/POM/4.0.0 http://maven.apache.org/maven-v4_0_0.xsd\">\n  <modelVersion>4.0.0</modelVersion>\n  <groupId>com.company</groupId>\n  <artifactId>my-servlet-app</artifactId>\n  <packaging>war</packaging>\n  <version>1.0</version>\n  <dependencies>\n    <dependency><groupId>javax.servlet</groupId><artifactId>javax.servlet-api</artifactId><version>3.1.0</version><scope>provided</scope></dependency>\n  </dependencies>\n  <build><plugins><plugin>\n    <groupId>org.apache.tomcat.maven</groupId><artifactId>tomcat7-maven-plugin</artifactId><version>2.2</version>\n    <!-- PORT IS HARDCODED HERE. Changing script variable won\x27t help. -->\n    <configuration><port>8081</port><path>/</path></configuration>\n  </plugin></plugins></build>\n</project>\n"

def servletJava : String :=
"\npackage com.company;\nimport javax.servlet.*;\nimport javax.servlet.annotation.WebServlet;\nimport javax.servlet.http.*;\nimport java.io.IOException;\n@WebServlet(\"/hello\")\npublic class HelloServlet extends HttpServlet \x7b\n    protected void doGet(HttpServletRequest req, HttpServletResponse resp) throws IOException \x7b\n        resp.getWriter().println(\"<h1>Servlet is Live!</h1><p>Port is fixed to 8081</p>\");\n    \x7d\n\x7d\n"

def servletBashTmpl : String :=
"\n        #!/bin/bash\n        LOG_FILE=\"servlet.log\"\n        \n        # Kill 8081 if running\n        PID=$(lsof -t -i:8081)\n        if [ -n \"$PID\" ]; then kill -9 $PID; sleep 2; fi\n\n        echo \"Starting Tomcat...\"\n        # Notice: No -Dmaven.tomcat.port variable. It uses pom.xml setting.\n        nohup mvn tomcat7:run > $LOG_FILE 2>&1 &\n\n        echo \"Waiting for Tomcat...\"\n        sleep 5\n        if lsof -t -i:8081 > /dev/null; then\n            echo \"SUCCESS! http://localhost:8081/hello\"\n        else\n            echo \"FAILED. Check logs.\"\n        fi\n    "

def servletServiceTmpl : String :=
"\n        #!/bin/bash\n        SERVICE_NAME=\"my-servlet-app\"\n        WORK_DIR=$(pwd)\n        MVN_PATH=$(command -v mvn)\n\n        echo \"Creating Service for $SERVICE_NAME...\"\n        \n        sudo tee /etc/systemd/system/$SERVICE_NAME.service > /dev/null <<EOF\n[Unit]\nDescription=Servlet Static Port\nAfter=network.target\n\n[Service]\nUser=$USER\nWorkingDirectory=$WORK_DIR\n# NO PORT ARGUMENT HERE. It is locked in pom.xml\nExecStart=$MVN_PATH tomcat7:run\nSuccessExitStatus=143\nRestart=always\nRestartSec=10\n\n[Install]\nWantedBy=multi-user.target\nEOF\n\n        sudo systemctl daemon-reload\n        sudo systemctl enable $SERVICE_NAME\n        sudo systemctl start $SERVICE_NAME\n        echo \"✅ Service Installed. Port 8081 is locked.\"\n    "

def servletWebXml : String :=
"<web-app version=\"3.0\" xmlns=\"http://java.sun.com/xml/ns/javaee\"></web-app>"


/-- Output root of the Spring variant (`base` in `setup_spring_project`). -/
def springBase : String := "my-spring-app"

/-- Output root of the Servlet variant (`base` in `setup_servlet_project`). -/
def servletBase : String := "my-servlet-app"

/-- `setup_spring_project` of the source: reset the output root, print the
banner, then write the five artifacts in source order (the two shell scripts
go through `textwrap.dedent` first, as in the source). -/
def setup_spring_project (w : World) (s : FileSys) : Outcome :=
  (clean_directory w springBase s).bind (fun s1 =>
  (create_file "my-spring-app/pom.xml" springPom
      (s1.print "\n🚀 Creating STATIC Spring Boot Project: my-spring-app...")).bind (fun s2 =>
  (create_file "my-spring-app/src/main/resources/application.properties" springProps s2).bind (fun s3 =>
  (create_file "my-spring-app/src/main/java/com/company/Application.java" springJava s3).bind (fun s4 =>
  (create_file "my-spring-app/control.sh" (dedent springBashTmpl) s4).bind (fun s5 =>
  create_file "my-spring-app/install_service.sh" (dedent springServiceTmpl) s5)))))

/-- `setup_servlet_project` of the source: reset the output root, print the
banner, then write the five artifacts in source order (`web.xml` is written
after `control.sh`, exactly as in the source). -/
def setup_servlet_project (w : World) (s : FileSys) : Outcome :=
  (clean_directory w servletBase s).bind (fun s1 =>
  (create_file "my-servlet-app/pom.xml" servletPom
      (s1.print "\n🚀 Creating STATIC Servlet Project: my-servlet-app...")).bind (fun s2 =>
  (create_file "my-servlet-app/src/main/java/com/company/HelloServlet.java" servletJava s2).bind (fun s3 =>
  (create_file "my-servlet-app/control.sh" (dedent servletBashTmpl) s3).bind (fun s4 =>
  (create_file "my-servlet-app/src/main/webapp/WEB-INF/web.xml" servletWebXml s4).bind (fun s5 =>
  create_file "my-servlet-app/install_service.sh" (dedent servletServiceTmpl) s5)))))

/-- `main` of the source (named `mainRun` since Lean reserves `main`): both
variants in sequence, then the final banner. -/
def mainRun (w : World) (s : FileSys) : Outcome :=
  (setup_spring_project w s).bind (fun s1 =>
  (setup_servlet_project w s1).bind (fun s2 =>
  .ok ((s2.print "\n✅ STATIC PORT PROJECTS GENERATED.").print
    "Go into folders and run: sudo ./install_service.sh")))

/-- The Spring variant manifest: the (path, content) pairs passed to
`create_file` by `setup_spring_project`, in call order. -/
def springManifest : List (String × String) :=
  [("my-spring-app/pom.xml", springPom),
   ("my-spring-app/src/main/resources/application.properties", springProps),
   ("my-spring-app/src/main/java/com/company/Application.java", springJava),
   ("my-spring-app/control.sh", dedent springBashTmpl),
   ("my-spring-app/install_service.sh", dedent springServiceTmpl)]

/-- The Servlet variant manifest: the (path, content) pairs passed to
`create_file` by `setup_servlet_project`, in call order. -/
def servletManifest : List (String × String) :=
  [("my-servlet-app/pom.xml", servletPom),
   ("my-servlet-app/src/main/java/com/company/HelloServlet.java", servletJava),
   ("my-servlet-app/control.sh", dedent servletBashTmpl),
   ("my-servlet-app/src/main/webapp/WEB-INF/web.xml", servletWebXml),
   ("my-servlet-app/install_service.sh", dedent servletServiceTmpl)]

/-- The Spring artifacts as they reach the disk: stripped content at each
path. -/
def renderedSpring : List (String × String) :=
  springManifest.map (fun a => (a.1, pyStrip a.2))

/-- The Servlet artifacts as they reach the disk: stripped content at each
path. -/
def renderedServlet : List (String × String) :=
  servletManifest.map (fun a => (a.1, pyStrip a.2))

/-- The artifacts of a state lying at or beneath a root directory. -/
def FileSys.filesUnder (s : FileSys) (root : String) : List (String × String) :=
  s.files.filter (fun f => underOf root f.1)

/-- Association-list lookup of a written file. -/
def lookupFile : List (String × String) → String → Option String
  | [], _ => none
  | f :: fs, p => if f.1 == p then some f.2 else lookupFile fs p

/-- A string neither starts nor ends with a stripping-relevant whitespace
character. -/
def noEdgeWs (s : String) : Bool :=
  s.data.head?.all (fun c => !isPyWs c) && s.data.getLast?.all (fun c => !isPyWs c)

/-! ### Helper lemmas -/

theorem underOf_self (p : String) : underOf p p = true := by
  simp [underOf]

theorem underOf_trans {p q e : String} (hpq : underOf p q = true)
    (hqe : underOf q e = true) : underOf p e = true := by
  simp only [underOf, Bool.or_eq_true, beq_iff_eq, List.isPrefixOf_iff_prefix] at *
  rcases hpq with h1 | h1
  · subst h1; exact hqe
  · rcases hqe with h2 | h2
    · subst h2; exact Or.inr h1
    · exact Or.inr ((h1.trans (List.prefix_append q.data ['/'])).trans h2)

theorem any_filter_of_any {α : Type} {l : List α} {k r : α → Bool}
    (h : l.any r = false) : (l.filter k).any r = false := by
  rw [List.any_filter]
  simp only [List.any_eq_false] at *
  intro a ha
  have := h a ha
  simp only [Bool.not_eq_true] at this
  simp [this]

theorem existsPath_removeUnder {s : FileSys} {p q : String}
    (h : underOf p q = true) : (s.removeUnder p).existsPath q = false := by
  simp only [FileSys.existsPath, FileSys.removeUnder, Bool.or_eq_false_iff,
    List.any_filter, List.any_eq_false]
  constructor
  · intro d _
    by_cases hq : underOf q d = true
    · simp [underOf_trans h hq]
    · simp only [Bool.not_eq_true] at hq
      simp [hq]
  · intro f _
    by_cases hq : underOf q f.1 = true
    · simp [underOf_trans h hq]
    · simp only [Bool.not_eq_true] at hq
      simp [hq]

theorem removeUnder_of_not_exists {s : FileSys} {p : String}
    (h : s.existsPath p = false) : s.removeUnder p = s := by
  simp only [FileSys.existsPath, Bool.or_eq_false_iff, List.any_eq_false] at h
  obtain ⟨hd, hf⟩ := h
  cases s with
  | mk files dirs output =>
    simp only [FileSys.removeUnder, FileSys.mk.injEq, and_true, true_and]
    constructor
    · rw [List.filter_eq_self]
      intro f hfm
      have := hf f hfm
      simp only [Bool.not_eq_true] at this
      simp [this]
    · rw [List.filter_eq_self]
      intro d hdm
      have := hd d hdm
      simp only [Bool.not_eq_true] at this
      simp [this]

theorem clean_not_exists {w : World} {p : String} {s : FileSys}
    (h : s.existsPath p = false) : clean_directory w p s = .ok s := by
  simp [clean_directory, h]

theorem clean_success {w : World} {p : String} {s : FileSys}
    (hfile : s.isFileAt p = false) (hb : w.removeBlocked p = false)
    (hf : w.removeFault p = false) :
    clean_directory w p s = .ok (s.removeUnder p) := by
  by_cases hex : s.existsPath p = true
  · simp [clean_directory, hex, hfile, hb, hf]
  · simp only [Bool.not_eq_true] at hex
    rw [clean_not_exists hex, removeUnder_of_not_exists hex]

theorem setFile_of_not_mem {l : List (String × String)} {p c : String}
    (h : l.any (fun f => f.1 == p) = false) : setFile l p c = l ++ [(p, c)] := by
  induction l with
  | nil => rfl
  | cons f fs ih =>
    simp only [List.any_cons, Bool.or_eq_false_iff] at h
    simp [setFile, h.1, ih h.2]

theorem lookupFile_setFile (l : List (String × String)) (p c : String) :
    lookupFile (setFile l p c) p = some c := by
  induction l with
  | nil => simp [setFile, lookupFile]
  | cons f fs ih =>
    by_cases h : (f.1 == p) = true
    · simp [setFile, h, lookupFile]
    · simp only [Bool.not_eq_true] at h
      simp [setFile, h, lookupFile, ih]

theorem mem_addAll_of_mem {ds : List String} {d : String} (l : List String)
    (h : d ∈ ds) : d ∈ addAll ds l := by
  induction l generalizing ds with
  | nil => exact h
  | cons a l ih =>
    have step : addAll ds (a :: l) =
        addAll (if ds.contains a then ds else ds ++ [a]) l := rfl
    rw [step]
    apply ih
    split
    · exact h
    · exact List.mem_append_left _ h

theorem mem_addAll_of_mem_arg {ds : List String} {d : String} {l : List String}
    (h : d ∈ l) : d ∈ addAll ds l := by
  induction l generalizing ds with
  | nil => cases h
  | cons a l ih =>
    have step : addAll ds (a :: l) =
        addAll (if ds.contains a then ds else ds ++ [a]) l := rfl
    rw [step]
    rcases List.mem_cons.mp h with h1 | h1
    · subst h1
      apply mem_addAll_of_mem
      split
      · next hc => exact List.elem_iff.mp hc
      · exact List.mem_append_right _ (List.mem_singleton_self d)
    · exact ih h1

theorem isPrefixOf_self_append (a t : List Char) : a.isPrefixOf (a ++ t) = true := by
  simp

theorem countSubAux_nil_pat (l : List Char) : 0 < countSubAux [] l := by
  cases l <;> simp [countSubAux]

theorem countSubAux_sandwich (pat a b : List Char) :
    0 < countSubAux pat (a ++ (pat ++ b)) := by
  induction a with
  | nil =>
    cases pat with
    | nil => simpa using countSubAux_nil_pat b
    | cons p ps =>
      have step : countSubAux (p :: ps) ([] ++ ((p :: ps) ++ b)) =
          (if (p :: ps).isPrefixOf ((p :: ps) ++ b) then 1 else 0) +
            countSubAux (p :: ps) (ps ++ b) := rfl
      rw [step, isPrefixOf_self_append]
      simp
  | cons c a ih =>
    have step : countSubAux pat ((c :: a) ++ (pat ++ b)) =
        (if pat.isPrefixOf ((c :: a) ++ (pat ++ b)) then 1 else 0) +
          countSubAux pat (a ++ (pat ++ b)) := rfl
    rw [step]
    omega

theorem hasSub_sandwich (x p y : String) : hasSub (x ++ p ++ y) p = true := by
  have h : 0 < countSub (x ++ p ++ y) p := by
    have : (x ++ p ++ y).data = x.data ++ (p.data ++ y.data) := by
      simp [String.data_append]
    rw [countSub, this]
    exact countSubAux_sandwich p.data x.data y.data
  simp only [hasSub, Bool.not_eq_true', beq_eq_false_iff_ne]
  omega

theorem pyStrip_noEdgeWs (c : String) : noEdgeWs (pyStrip c) = true := by
  simp only [noEdgeWs, pyStrip, pyStripList, Bool.and_eq_true]
  constructor
  · rw [List.head?_reverse]
    have hdec := List.head?_dropWhile_not isPyWs ((c.data.dropWhile isPyWs).reverse)
    cases hr : ((c.data.dropWhile isPyWs).reverse.dropWhile isPyWs).getLast? with
    | none => simp
    | some x =>
      have hsplit : (c.data.dropWhile isPyWs).reverse =
          (c.data.dropWhile isPyWs).reverse.takeWhile isPyWs ++
            (c.data.dropWhile isPyWs).reverse.dropWhile isPyWs :=
        (List.takeWhile_append_dropWhile isPyWs _).symm
      have hlast : ((c.data.dropWhile isPyWs).reverse).getLast? = some x := by
        rw [hsplit, List.getLast?_append, hr]
        rfl
      rw [List.getLast?_reverse] at hlast
      have hhd := List.head?_dropWhile_not isPyWs c.data
      rw [hlast] at hhd
      simp [hr, hhd]
  · rw [List.getLast?_reverse]
    have hhd := List.head?_dropWhile_not isPyWs ((c.data.dropWhile isPyWs).reverse)
    cases hh : ((c.data.dropWhile isPyWs).reverse.dropWhile isPyWs).head? with
    | none => simp [hh]
    | some x =>
      rw [hh] at hhd
      simp [hh, hhd]

theorem create_file_ok (p : String) (h : (dirname p == "") = false) (c : String)
    (s : FileSys) :
    create_file p c s =
      .ok ⟨setFile s.files p (pyStrip c),
           addAll s.dirs (ancestors (dirname p)),
           s.output ++ ["✅ Generated: " ++ p]⟩ := by
  simp [create_file, makedirs, h, Outcome.bind, FileSys.print]

theorem isFileAt_filter_under {files : List (String × String)} {base p : String}
    (h : underOf base p = true) :
    (files.filter (fun f => !underOf base f.1)).any (fun f => f.1 == p) = false := by
  rw [List.any_filter]
  simp only [List.any_eq_false]
  intro f _
  by_cases hq : f.1 = p
  · simp [hq, h]
  · simp [hq]

theorem Outcome.bind_ok (s : FileSys) (f : FileSys → Outcome) :
    Outcome.bind (.ok s) f = f s := rfl

theorem Outcome.bind_exited (c : Nat) (s : FileSys) (f : FileSys → Outcome) :
    Outcome.bind (.exited c s) f = .exited c s := rfl

theorem Outcome.bind_raised (s : FileSys) (f : FileSys → Outcome) :
    Outcome.bind (.raised s) f = .raised s := rfl

/-- Write a whole manifest in order with `create_file`. -/
def writeAll (ms : List (String × String)) (s : FileSys) : Outcome :=
  match ms with
  | [] => .ok s
  | m :: rest => (create_file m.1 m.2 s).bind (writeAll rest)

theorem writeAll_files (ms : List (String × String)) :
    ∀ s : FileSys,
    ms.all (fun m => !(dirname m.1 == "")) = true →
    (∀ m ∈ ms, s.files.any (fun f => f.1 == m.1) = false) →
    (ms.map (fun m => m.1)).Nodup →
    ∃ s', writeAll ms s = .ok s' ∧
      s'.files = s.files ++ ms.map (fun m => (m.1, pyStrip m.2)) := by
  induction ms with
  | nil =>
    intro s _ _ _
    exact ⟨s, rfl, by simp⟩
  | cons m rest ih =>
    intro s hd hnew hnd
    simp only [List.all_cons, Bool.and_eq_true] at hd
    obtain ⟨h1, h2⟩ := hd
    rw [Bool.not_eq_true'] at h1
    have habs : s.files.any (fun f => f.1 == m.1) = false :=
      hnew m (List.mem_cons_self m rest)
    have hrw : writeAll (m :: rest) s =
        writeAll rest ⟨s.files ++ [(m.1, pyStrip m.2)],
          addAll s.dirs (ancestors (dirname m.1)),
          s.output ++ ["✅ Generated: " ++ m.1]⟩ := by
      have hw : writeAll (m :: rest) s = (create_file m.1 m.2 s).bind (writeAll rest) := rfl
      rw [hw, create_file_ok m.1 h1, setFile_of_not_mem habs, Outcome.bind_ok]
    rw [hrw]
    simp only [List.map_cons, List.nodup_cons] at hnd
    obtain ⟨hm1, hnd'⟩ := hnd
    obtain ⟨s', hrun, hfiles⟩ := ih ⟨s.files ++ [(m.1, pyStrip m.2)],
        addAll s.dirs (ancestors (dirname m.1)),
        s.output ++ ["✅ Generated: " ++ m.1]⟩ h2 (by
      intro m' hm'
      simp only [List.any_append]
      rw [hnew m' (List.mem_cons_of_mem _ hm')]
      have hne : m.1 ≠ m'.1 := by
        intro he
        have hmem : m'.1 ∈ rest.map (fun x => x.1) := List.mem_map_of_mem _ hm'
        rw [← he] at hmem
        exact hm1 hmem
      simp [hne]) hnd'
    refine ⟨s', hrun, ?_⟩
    rw [hfiles]
    simp [List.append_assoc]

theorem setup_spring_writeAll (w : World) (s : FileSys) :
    setup_spring_project w s =
      (clean_directory w springBase s).bind (fun s1 =>
        writeAll springManifest
          (s1.print "\n🚀 Creating STATIC Spring Boot Project: my-spring-app...")) := rfl

theorem setup_servlet_writeAll (w : World) (s : FileSys) :
    setup_servlet_project w s =
      (clean_directory w servletBase s).bind (fun s1 =>
        writeAll servletManifest
          (s1.print "\n🚀 Creating STATIC Servlet Project: my-servlet-app...")) := rfl

theorem setup_spring_files {w : World} {s : FileSys}
    (hb : w.removeBlocked springBase = false) (hf : w.removeFault springBase = false)
    (hfile : s.isFileAt springBase = false) :
    ∃ s', setup_spring_project w s = .ok s' ∧
      s'.files = s.files.filter (fun f => !underOf springBase f.1) ++ renderedSpring := by
  rw [setup_spring_writeAll, clean_success hfile hb hf, Outcome.bind_ok]
  obtain ⟨s', hrun, hfiles⟩ := writeAll_files springManifest
    ((s.removeUnder springBase).print
      "\n🚀 Creating STATIC Spring Boot Project: my-spring-app...")
    (by decide)
    (by
      intro m hm
      have hpr : (((s.removeUnder springBase).print
            "\n🚀 Creating STATIC Spring Boot Project: my-spring-app...").files)
          = s.files.filter (fun f => !underOf springBase f.1) := rfl
      rw [hpr]
      simp only [springManifest] at hm
      fin_cases hm <;> exact isFileAt_filter_under (by decide))
    (by decide)
  refine ⟨s', hrun, ?_⟩
  rw [hfiles]
  rfl

theorem setup_servlet_files {w : World} {s : FileSys}
    (hb : w.removeBlocked servletBase = false) (hf : w.removeFault servletBase = false)
    (hfile : s.isFileAt servletBase = false) :
    ∃ s', setup_servlet_project w s = .ok s' ∧
      s'.files = s.files.filter (fun f => !underOf servletBase f.1) ++ renderedServlet := by
  rw [setup_servlet_writeAll, clean_success hfile hb hf, Outcome.bind_ok]
  obtain ⟨s', hrun, hfiles⟩ := writeAll_files servletManifest
    ((s.removeUnder servletBase).print
      "\n🚀 Creating STATIC Servlet Project: my-servlet-app...")
    (by decide)
    (by
      intro m hm
      have hpr : (((s.removeUnder servletBase).print
            "\n🚀 Creating STATIC Servlet Project: my-servlet-app...").files)
          = s.files.filter (fun f => !underOf servletBase f.1) := rfl
      rw [hpr]
      simp only [servletManifest] at hm
      fin_cases hm <;> exact isFileAt_filter_under (by decide))
    (by decide)
  refine ⟨s', hrun, ?_⟩
  rw [hfiles]
  rfl

theorem main_files {w : World} {s : FileSys}
    (hbA : w.removeBlocked springBase = false) (hbB : w.removeBlocked servletBase = false)
    (hfA : w.removeFault springBase = false) (hfB : w.removeFault servletBase = false)
    (hA : s.isFileAt springBase = false) (hB : s.isFileAt servletBase = false) :
    ∃ s', mainRun w s = .ok s' ∧
      s'.files = (s.files.filter (fun f => !underOf springBase f.1)).filter
          (fun f => !underOf servletBase f.1) ++ renderedSpring ++ renderedServlet := by
  obtain ⟨s1, hrun1, hfiles1⟩ := setup_spring_files hbA hfA hA
  have hB1 : s1.isFileAt servletBase = false := by
    simp only [FileSys.isFileAt] at hB ⊢
    rw [hfiles1, List.any_append]
    rw [any_filter_of_any hB]
    rfl
  obtain ⟨s2, hrun2, hfiles2⟩ := setup_servlet_files hbB hfB hB1
  refine ⟨(s2.print "\n✅ STATIC PORT PROJECTS GENERATED.").print
      "Go into folders and run: sudo ./install_service.sh", ?_, ?_⟩
  · unfold mainRun
    rw [hrun1, Outcome.bind_ok, hrun2, Outcome.bind_ok]
  · have hpr : (((s2.print "\n✅ STATIC PORT PROJECTS GENERATED.").print
        "Go into folders and run: sudo ./install_service.sh").files) = s2.files := rfl
    rw [hpr, hfiles2, hfiles1, List.filter_append]
    rw [show renderedSpring.filter (fun f => !underOf servletBase f.1) =
      renderedSpring from rfl]

theorem filter_two_not_first (l : List (String × String)) (b1 b2 : String) :
    ((l.filter (fun f => !underOf b1 f.1)).filter
        (fun f => !underOf b2 f.1)).filter (fun f => underOf b1 f.1) = [] := by
  rw [List.filter_eq_nil_iff]
  intro a ha
  have h1 := (List.mem_filter.mp ha).1
  have h2 := (List.mem_filter.mp h1).2
  simp only [Bool.not_eq_true'] at h2
  simp [h2]

theorem filter_two_not_second (l : List (String × String)) (b1 b2 : String) :
    ((l.filter (fun f => !underOf b1 f.1)).filter
        (fun f => !underOf b2 f.1)).filter (fun f => underOf b2 f.1) = [] := by
  rw [List.filter_eq_nil_iff]
  intro a ha
  have h2 := (List.mem_filter.mp ha).2
  simp only [Bool.not_eq_true'] at h2
  simp [h2]

theorem filter_run_spring (l : List (String × String)) :
    ((l.filter (fun f => !underOf springBase f.1)).filter (fun f => !underOf servletBase f.1)
        ++ renderedSpring ++ renderedServlet).filter (fun f => underOf springBase f.1) =
      renderedSpring := by
  rw [List.filter_append, List.filter_append, filter_two_not_first]
  rw [show renderedSpring.filter (fun f => underOf springBase f.1) = renderedSpring from rfl]
  rw [show renderedServlet.filter (fun f => underOf springBase f.1) = [] from rfl]
  simp

theorem filter_run_servlet (l : List (String × String)) :
    ((l.filter (fun f => !underOf springBase f.1)).filter (fun f => !underOf servletBase f.1)
        ++ renderedSpring ++ renderedServlet).filter (fun f => underOf servletBase f.1) =
      renderedServlet := by
  rw [List.filter_append, List.filter_append, filter_two_not_second]
  rw [show renderedSpring.filter (fun f => underOf servletBase f.1) = [] from rfl]
  rw [show renderedServlet.filter (fun f => underOf servletBase f.1) = renderedServlet from rfl]
  simp

/-! ### Claim theorems -/

/-- Claim C1: each variant's fixed port appears identically in every artifact
of that variant that references a port, and no artifact references a different
port value.  Port occurrences are formalized as maximal decimal digit runs in
the non-system port range [1024, 65535].  For Variant A every artifact except
the build manifest (which references no port at all) mentions 8080 and no
other port-range numeral; for Variant B every artifact except the deployment
descriptor stub mentions 8081 and no other port-range numeral.  The only other
port-range numeral anywhere is 2001, and every occurrence of 2001 is the year
inside the fixed XML-namespace URI of the two build manifests, not a port. -/
theorem claim_c1_port_consistency :
    (renderedSpring.all
        (fun a => a.1 == "my-spring-app/pom.xml" || mentionsPort a.2 8080) = true)
  ∧ (renderedSpring.all
        (fun a => (portRuns a.2).all (fun n => n == 8080 || n == 2001)) = true)
  ∧ (renderedServlet.all
        (fun a => a.1 == "my-servlet-app/src/main/webapp/WEB-INF/web.xml"
          || mentionsPort a.2 8081) = true)
  ∧ (renderedServlet.all
        (fun a => (portRuns a.2).all (fun n => n == 8081 || n == 2001)) = true)
  ∧ ((renderedSpring ++ renderedServlet).all
        (fun a => countSub a.2 "2001" == countSub a.2 "/2001/XMLSchema-instance") = true) :=
  ⟨rfl, rfl, rfl, rfl, rfl⟩

/-- Claim C2 is false for Variant A: the generated Spring build manifest
(`my-spring-app/pom.xml`, the first artifact written) contains no occurrence
of the fixed port 8080, no port-range numeral other than the namespace-URI
year 2001, and not even the substring "port"; the fixed listening port is
declared in `application.properties` instead. -/
theorem claim_c2_counterexample :
    renderedSpring.head? = some ("my-spring-app/pom.xml", pyStrip springPom)
  ∧ mentionsPort (pyStrip springPom) 8080 = false
  ∧ hasSub (pyStrip springPom) "8080" = false
  ∧ hasSub (pyStrip springPom) "port" = false
  ∧ portRuns (pyStrip springPom) = [2001] :=
  ⟨rfl, rfl, rfl, rfl, rfl⟩

/-- Claim C2 amended: Variant B's build manifest declares the fixed port 8081
in the tomcat plugin configuration block that the build tool honors; Variant
A's build manifest declares no port — A's fixed listening port property
(`server.port=8080`) is declared in the generated runtime configuration file
`application.properties`, which the Spring runtime honors. -/
theorem claim_c2_amended :
    hasSub (pyStrip servletPom) "<configuration><port>8081</port>" = true
  ∧ lookupFile renderedServlet "my-servlet-app/pom.xml" = some (pyStrip servletPom)
  ∧ mentionsPort (pyStrip servletPom) 8081 = true
  ∧ mentionsPort (pyStrip springPom) 8080 = false
  ∧ lookupFile renderedSpring "my-spring-app/src/main/resources/application.properties"
      = some "server.port=8080" :=
  ⟨rfl, rfl, rfl, rfl, rfl⟩

/-- Claim C8: the two variants use distinct fixed ports (8080 for Spring,
8081 for Servlet) and disjoint fixed output roots, every artifact path of a
variant lies strictly beneath its own root, no generated path is shared
between variants, and neither variant's artifacts mention the other's port. -/
theorem claim_c8_disjoint_variants :
    (springManifest.all (fun a => ("my-spring-app/").data.isPrefixOf a.1.data) = true)
  ∧ (servletManifest.all (fun a => ("my-servlet-app/").data.isPrefixOf a.1.data) = true)
  ∧ ((springManifest.map (fun a => a.1)).all
      (fun p => !((servletManifest.map (fun a => a.1)).contains p)) = true)
  ∧ springBase ≠ servletBase
  ∧ (renderedSpring.all (fun a => !mentionsPort a.2 8081) = true)
  ∧ (renderedServlet.all (fun a => !mentionsPort a.2 8080) = true)
  ∧ (8080 : Nat) ≠ 8081 :=
  ⟨rfl, rfl, rfl, by decide, rfl, rfl, by decide⟩

theorem clean_blocked {w : World} {p : String} {s : FileSys}
    (hex : s.existsPath p = true) (hfile : s.isFileAt p = false)
    (hb : w.removeBlocked p = true) :
    clean_directory w p s = .exited 1 ⟨s.files, s.dirs, s.output ++ diagLines p⟩ := by
  simp [clean_directory, hex, hfile, hb]

/-- Claim C3: when the reset of Variant A's output directory is blocked by a
permission mismatch, the whole run exits with status 1 before any artifact of
either variant is written: the final state keeps the initial files and
directories unchanged, the only new output is the reset diagnostic, and no
line of that diagnostic is a file-written confirmation, so no `create_file`
call of either variant ran. -/
theorem claim_c3_blocked_reset_aborts_run (w : World) (s : FileSys)
    (hex : s.existsPath springBase = true) (hfile : s.isFileAt springBase = false)
    (hb : w.removeBlocked springBase = true) :
    mainRun w s = .exited 1 ⟨s.files, s.dirs, s.output ++ diagLines springBase⟩
  ∧ (diagLines springBase).all (fun l => !hasSub l "✅ Generated: ") = true := by
  constructor
  · unfold mainRun
    rw [setup_spring_writeAll, clean_blocked hex hfile hb]
    simp only [Outcome.bind_exited]
  · rfl

/-- Witness for C3 at a concrete blocked world and state. -/
theorem claim_c3_witness :
    mainRun ⟨fun p => p == "my-spring-app", fun _ => false⟩ ⟨[], ["my-spring-app"], []⟩ =
      .exited 1 ⟨[], ["my-spring-app"], diagLines springBase⟩
  ∧ (diagLines springBase).all (fun l => !hasSub l "✅ Generated: ") = true :=
  claim_c3_blocked_reset_aborts_run ⟨fun p => p == "my-spring-app", fun _ => false⟩
    ⟨[], ["my-spring-app"], []⟩ rfl rfl rfl

/-- Claim C4: on a permission error while removing an existing path, the
resetter prints a diagnostic that names the exact blocked path, states the
probable cause (a prior privileged run left files owned by Root), and prints
the exact out-of-band remediation command for that path, then terminates the
run with the distinguished non-zero exit status 1. -/
theorem claim_c4_blocked_reset_diagnostic (w : World) (p : String) (s : FileSys)
    (hex : s.existsPath p = true) (hfile : s.isFileAt p = false)
    (hb : w.removeBlocked p = true) :
    clean_directory w p s = .exited 1 ⟨s.files, s.dirs, s.output ++ diagLines p⟩
  ∧ (∃ l ∈ diagLines p, hasSub l p = true)
  ∧ (∃ l ∈ diagLines p, hasSub l
      "REASON: The previous build was run with \x27sudo\x27, so the files are owned by Root." = true)
  ∧ ("        sudo rm -rf " ++ p ++ "\n") ∈ diagLines p
  ∧ (1 : Nat) ≠ 0 := by
  refine ⟨clean_blocked hex hfile hb, ?_, ?_, ?_, by decide⟩
  · refine ⟨"\n❌ ERROR: Permission denied while removing \x27" ++ p ++ "\x27.", ?_, ?_⟩
    · simp [diagLines]
    · exact hasSub_sandwich _ p _
  · refine ⟨"   REASON: The previous build was run with \x27sudo\x27, so the files are owned by Root.",
      ?_, ?_⟩
    · simp [diagLines]
    · rfl
  · simp [diagLines]

/-- Witness for C4 at a concrete blocked path. -/
theorem claim_c4_witness :
    clean_directory ⟨fun _ => true, fun _ => false⟩ "blocked-dir" ⟨[], ["blocked-dir"], []⟩ =
      .exited 1 ⟨[], ["blocked-dir"], diagLines "blocked-dir"⟩
  ∧ (∃ l ∈ diagLines "blocked-dir", hasSub l "blocked-dir" = true)
  ∧ (∃ l ∈ diagLines "blocked-dir", hasSub l
      "REASON: The previous build was run with \x27sudo\x27, so the files are owned by Root." = true)
  ∧ ("        sudo rm -rf " ++ "blocked-dir" ++ "\n") ∈ diagLines "blocked-dir"
  ∧ (1 : Nat) ≠ 0 :=
  claim_c4_blocked_reset_diagnostic ⟨fun _ => true, fun _ => false⟩ "blocked-dir"
    ⟨[], ["blocked-dir"], []⟩ rfl rfl rfl

/-- Claim C5: the resetter is an idempotent removal.  If the path does not
exist it succeeds silently as a no-op; if it exists and is removable it
removes the path and everything beneath it; and running it twice in
succession is the same as running it once (also through the exit and
exception branches, which abort the second run identically). -/
theorem claim_c5_reset_idempotent (w : World) (p : String) (s : FileSys) :
    (s.existsPath p = false → clean_directory w p s = .ok s)
  ∧ (s.isFileAt p = false → w.removeBlocked p = false → w.removeFault p = false →
      clean_directory w p s = .ok (s.removeUnder p)
      ∧ ∀ q, underOf p q = true → (s.removeUnder p).existsPath q = false)
  ∧ (clean_directory w p s).bind (clean_directory w p) = clean_directory w p s := by
  refine ⟨fun h => clean_not_exists h,
    fun hfile hb hf => ⟨clean_success hfile hb hf, fun q hq => existsPath_removeUnder hq⟩, ?_⟩
  by_cases hex : s.existsPath p = true
  · by_cases hfile : s.isFileAt p = true
    · rw [show clean_directory w p s = .raised s from by simp [clean_directory, hex, hfile]]
      rfl
    · rw [Bool.not_eq_true] at hfile
      by_cases hb : w.removeBlocked p = true
      · rw [clean_blocked hex hfile hb]
        rfl
      · rw [Bool.not_eq_true] at hb
        by_cases hf : w.removeFault p = true
        · rw [show clean_directory w p s = .raised s from by
            simp [clean_directory, hex, hfile, hb, hf]]
          rfl
        · rw [Bool.not_eq_true] at hf
          rw [clean_success hfile hb hf, Outcome.bind_ok,
            clean_not_exists (existsPath_removeUnder (underOf_self p))]
  · rw [Bool.not_eq_true] at hex
    rw [clean_not_exists hex, Outcome.bind_ok]
    exact clean_not_exists hex

/-- Witness for C5 at a concrete removable directory. -/
theorem claim_c5_witness :
    clean_directory ⟨fun _ => false, fun _ => false⟩ "my-app" ⟨[("my-app/f", "x")], [], []⟩ =
      .ok ((⟨[("my-app/f", "x")], [], []⟩ : FileSys).removeUnder "my-app")
  ∧ ((⟨[("my-app/f", "x")], [], []⟩ : FileSys).removeUnder "my-app").existsPath "my-app/f" = false
  ∧ (clean_directory ⟨fun _ => false, fun _ => false⟩ "my-app"
        ⟨[("my-app/f", "x")], [], []⟩).bind
      (clean_directory ⟨fun _ => false, fun _ => false⟩ "my-app") =
      clean_directory ⟨fun _ => false, fun _ => false⟩ "my-app" ⟨[("my-app/f", "x")], [], []⟩ :=
  have h := claim_c5_reset_idempotent ⟨fun _ => false, fun _ => false⟩ "my-app"
    ⟨[("my-app/f", "x")], [], []⟩
  ⟨(h.2.1 rfl rfl rfl).1, (h.2.1 rfl rfl rfl).2 "my-app/f" rfl, h.2.2⟩

/-- Claim C6: the artifact writer first ensures every ancestor directory of
the target path exists (succeeding and preserving directories that already
exist), then writes exactly the content trimmed of leading and trailing
whitespace, fully replacing any existing file at the path; the emitted bytes
equal `content.strip()` and have no leading or trailing whitespace. -/
theorem claim_c6_writer_strips_and_creates_dirs (path content : String) (s : FileSys)
    (h : (dirname path == "") = false) :
    create_file path content s =
      .ok ⟨setFile s.files path (pyStrip content),
           addAll s.dirs (ancestors (dirname path)),
           s.output ++ ["✅ Generated: " ++ path]⟩
  ∧ lookupFile (setFile s.files path (pyStrip content)) path = some (pyStrip content)
  ∧ noEdgeWs (pyStrip content) = true
  ∧ (∀ d ∈ ancestors (dirname path), d ∈ addAll s.dirs (ancestors (dirname path)))
  ∧ (∀ d ∈ s.dirs, d ∈ addAll s.dirs (ancestors (dirname path))) :=
  ⟨create_file_ok path h content s, lookupFile_setFile _ _ _, pyStrip_noEdgeWs content,
   fun _ hd => mem_addAll_of_mem_arg hd, fun _ hd => mem_addAll_of_mem _ hd⟩

/-- Witness for C6: a concrete write over an existing file with indented
content. -/
theorem claim_c6_witness :
    (dirname "a/b.txt" == "") = false
  ∧ create_file "a/b.txt" "  hi \n" ⟨[("a/b.txt", "old")], ["a"], []⟩ =
      .ok ⟨setFile [("a/b.txt", "old")] "a/b.txt" (pyStrip "  hi \n"),
           addAll ["a"] (ancestors (dirname "a/b.txt")),
           [] ++ ["✅ Generated: " ++ "a/b.txt"]⟩
  ∧ lookupFile (setFile [("a/b.txt", "old")] "a/b.txt" (pyStrip "  hi \n")) "a/b.txt"
      = some (pyStrip "  hi \n")
  ∧ noEdgeWs (pyStrip "  hi \n") = true :=
  have h := claim_c6_writer_strips_and_creates_dirs "a/b.txt" "  hi \n"
    ⟨[("a/b.txt", "old")], ["a"], []⟩ rfl
  ⟨rfl, h.1, h.2.1, h.2.2.1⟩

/-- Claim C7: with no reset faults and with neither output root shadowed by a
regular file, running the generator twice in a row succeeds both times and
leaves byte-identical artifact contents at the same paths under both output
roots after each run: the artifacts under each root are exactly the variant's
rendered manifest, independent of any prior state. -/
theorem claim_c7_regeneration_deterministic (w : World) (s : FileSys)
    (hb : ∀ p, w.removeBlocked p = false) (hf : ∀ p, w.removeFault p = false)
    (hA : s.isFileAt springBase = false) (hB : s.isFileAt servletBase = false) :
    ∃ s1 s2, mainRun w s = .ok s1 ∧ mainRun w s1 = .ok s2
      ∧ s1.filesUnder springBase = renderedSpring
      ∧ s2.filesUnder springBase = renderedSpring
      ∧ s1.filesUnder servletBase = renderedServlet
      ∧ s2.filesUnder servletBase = renderedServlet := by
  obtain ⟨s1, hrun1, hfiles1⟩ :=
    main_files (hb springBase) (hb servletBase) (hf springBase) (hf servletBase) hA hB
  have hA1 : s1.isFileAt springBase = false := by
    simp only [FileSys.isFileAt] at hA ⊢
    rw [hfiles1]
    simp only [List.any_append, Bool.or_eq_false_iff]
    exact ⟨⟨any_filter_of_any (any_filter_of_any hA), rfl⟩, rfl⟩
  have hB1 : s1.isFileAt servletBase = false := by
    simp only [FileSys.isFileAt] at hB ⊢
    rw [hfiles1]
    simp only [List.any_append, Bool.or_eq_false_iff]
    exact ⟨⟨any_filter_of_any (any_filter_of_any hB), rfl⟩, rfl⟩
  obtain ⟨s2, hrun2, hfiles2⟩ :=
    main_files (hb springBase) (hb servletBase) (hf springBase) (hf servletBase) hA1 hB1
  refine ⟨s1, s2, hrun1, hrun2, ?_, ?_, ?_, ?_⟩
  · simp only [FileSys.filesUnder]
    rw [hfiles1]
    exact filter_run_spring _
  · simp only [FileSys.filesUnder]
    rw [hfiles2]
    exact filter_run_spring _
  · simp only [FileSys.filesUnder]
    rw [hfiles1]
    exact filter_run_servlet _
  · simp only [FileSys.filesUnder]
    rw [hfiles2]
    exact filter_run_servlet _

/-- Witness for C7: two consecutive runs from the empty filesystem in a
fault-free world. -/
theorem claim_c7_witness :
    ∃ s1 s2, mainRun ⟨fun _ => false, fun _ => false⟩ ⟨[], [], []⟩ = .ok s1
      ∧ mainRun ⟨fun _ => false, fun _ => false⟩ s1 = .ok s2
      ∧ s1.filesUnder springBase = renderedSpring
      ∧ s2.filesUnder springBase = renderedSpring
      ∧ s1.filesUnder servletBase = renderedServlet
      ∧ s2.filesUnder servletBase = renderedServlet :=
  claim_c7_regeneration_deterministic ⟨fun _ => false, fun _ => false⟩ ⟨[], [], []⟩
    (fun _ => rfl) (fun _ => rfl) rfl rfl

/-- Claim C9: the resetter's diagnostic-and-exit handling applies only to
permission errors.  If removal of an existing path fails for another reason
(the path is a regular file, so `shutil.rmtree` raises `NotADirectoryError`,
or a non-permission error occurs during recursive removal), the exception
propagates uncaught with the state unchanged — no diagnostic is printed and
no exit is performed (an uncaught exception is never an `exited` outcome). -/
theorem claim_c9_other_errors_propagate (w : World) (p : String) (s : FileSys)
    (hex : s.existsPath p = true)
    (h : s.isFileAt p = true ∨ (w.removeBlocked p = false ∧ w.removeFault p = true)) :
    clean_directory w p s = .raised s
  ∧ (∀ c s', Outcome.raised s ≠ Outcome.exited c s') := by
  refine ⟨?_, fun c s' h' => by cases h'⟩
  cases h with
  | inl hfile => simp [clean_directory, hex, hfile]
  | inr hh =>
    by_cases hfile : s.isFileAt p = true
    · simp [clean_directory, hex, hfile]
    · rw [Bool.not_eq_true] at hfile
      simp [clean_directory, hex, hfile, hh.1, hh.2]

/-- Witness for C9: resetting a path at which a regular file exists. -/
theorem claim_c9_witness :
    clean_directory ⟨fun _ => false, fun _ => false⟩ "stray" ⟨[("stray", "x")], [], []⟩ =
      .raised ⟨[("stray", "x")], [], []⟩
  ∧ (∀ c s', Outcome.raised (⟨[("stray", "x")], [], []⟩ : FileSys) ≠ Outcome.exited c s') :=
  claim_c9_other_errors_propagate ⟨fun _ => false, fun _ => false⟩ "stray"
    ⟨[("stray", "x")], [], []⟩ rfl (Or.inl rfl)

/-- Claim C10: the writer fails with an exception, before writing anything,
when the target path has no directory component (directory creation is
attempted on the empty path); and every path in both variants' manifests has
a nonempty directory component, so this branch is unreachable in the
program's own run. -/
theorem claim_c10_empty_dirname_raises_but_unreachable :
    (∀ p c s, (dirname p == "") = true → create_file p c s = .raised s)
  ∧ (springManifest ++ servletManifest).all (fun a => !(dirname a.1 == "")) = true := by
  refine ⟨?_, rfl⟩
  intro p c s h
  simp [create_file, makedirs, h, Outcome.bind_raised]

/-- Witness for C10: a bare filename raises before anything is written. -/
theorem claim_c10_witness :
    (dirname "pom.xml" == "") = true
  ∧ create_file "pom.xml" "x" ⟨[], [], []⟩ = .raised ⟨[], [], []⟩ :=
  ⟨rfl, claim_c10_empty_dirname_raises_but_unreachable.1 "pom.xml" "x" ⟨[], [], []⟩ rfl⟩
